import Mathlib

/-!
Shallow embedding of `src/test-traces.py` (sample trace generator for the
grafana observability stack).

Time is modelled in integer milliseconds, threaded explicitly as a clock:
every `time.sleep(random.uniform(a, b))` in the source becomes a `Nat`
parameter (the drawn delay, in ms) that advances the clock, with the range
`[a*1000, b*1000]` recorded in a validity predicate.  Every
`random.random() < p` branch becomes a `Bool` draw parameter, every
`random.randint`/`random.uniform` value becomes an `Int`/`ℚ` parameter with
its range recorded in the validity predicate.  OpenTelemetry
`start_as_current_span` context-manager blocks become explicit span
construction: begin records the clock as `startTime`, the block body sets
attributes and advances the clock, and the close of the block records the
clock as `endTime` — including on the early `return` in
`simulate_order_process`, because Python's `with` runs `__exit__` on that
path too.
-/

/-- OpenTelemetry span status codes; a freshly created span is `unset`. -/
inductive StatusCode : Type where
  | unset : StatusCode
  | ok : StatusCode
  | error : StatusCode
deriving DecidableEq, Repr

/-- Scalar attribute values, as set by `set_attribute` in the source. -/
inductive AttrVal : Type where
  | s : String → AttrVal
  | b : Bool → AttrVal
  | i : Int → AttrVal
  | f : ℚ → AttrVal
deriving DecidableEq, Repr

/-- Insert-or-overwrite for an association list of attributes
(`set_attribute` overwrites an existing key). -/
def upsert : List (String × AttrVal) → String → AttrVal → List (String × AttrVal)
  | [], k, v => [(k, v)]
  | (k', v') :: rest, k, v =>
    if k' = k then (k, v) :: rest else (k', v') :: upsert rest k v

/-- A span: named timed unit of work with attributes, status and children.
(`Span` is recursive through `children`, hence an inductive with one
constructor rather than a structure.) -/
inductive Span : Type where
  | mk : String → List (String × AttrVal) → Nat → Option Nat → StatusCode →
      List Span → Span

def Span.name : Span → String
  | .mk n _ _ _ _ _ => n

def Span.attributes : Span → List (String × AttrVal)
  | .mk _ a _ _ _ _ => a

def Span.startTime : Span → Nat
  | .mk _ _ t _ _ _ => t

def Span.endTime : Span → Option Nat
  | .mk _ _ _ e _ _ => e

def Span.status : Span → StatusCode
  | .mk _ _ _ _ st _ => st

def Span.children : Span → List Span
  | .mk _ _ _ _ _ c => c

/-- `tracer.start_as_current_span(name)` at clock `t`: fresh span,
`startTime = t`, no end time yet, default status, no children. -/
def beginSpan (name : String) (t : Nat) : Span :=
  .mk name [] t none .unset []

/-- `span.set_attribute(k, v)`. -/
def Span.setAttr : Span → String → AttrVal → Span
  | .mk n a s e st c, k, v => .mk n (upsert a k v) s e st c

/-- Closing a `with` block at clock `t`: records `end_time`. -/
def Span.endAt : Span → Nat → Span
  | .mk n a s _ st c, t => .mk n a s (some t) st c

/-- Attach the completed children to a (root) span. -/
def Span.withChildren : Span → List Span → Span
  | .mk n a s e st _, cs => .mk n a s e st cs

/-- Attribute lookup by key. -/
def getAttr (sp : Span) (k : String) : Option AttrVal :=
  (sp.attributes.find? (fun p => p.1 == k)).map (fun p => p.2)

/-- Random draws consumed by one run of `simulate_user_request`:
the four sleep durations (ms), the 10%-failure branch outcome of the
external API call, and the random response size. -/
structure UserDraws : Type where
  authDelay : Nat
  dbDelay : Nat
  apiDelay : Nat
  procDelay : Nat
  apiFail : Bool
  respSize : Int
deriving DecidableEq, Repr

/-- Ranges of the random draws in `simulate_user_request`:
`uniform(0.01,0.05)`, `uniform(0.02,0.1)`, `uniform(0.05,0.2)`,
`uniform(0.005,0.02)` (in ms), `randint(500,2000)`. -/
abbrev UserDraws.Valid (d : UserDraws) : Prop :=
  10 ≤ d.authDelay ∧ d.authDelay ≤ 50 ∧
  20 ≤ d.dbDelay ∧ d.dbDelay ≤ 100 ∧
  50 ≤ d.apiDelay ∧ d.apiDelay ≤ 200 ∧
  5 ≤ d.procDelay ∧ d.procDelay ≤ 20 ∧
  500 ≤ d.respSize ∧ d.respSize ≤ 2000

/-- `simulate_user_request(tracer)` from `src/test-traces.py`, lines 43–94:
returns the completed root span and the final clock. -/
def simulate_user_request (d : UserDraws) (t0 : Nat) : Span × Nat :=
  let parent0 := ((((beginSpan "user_request" t0).setAttr
      "http.method" (.s "GET")).setAttr
      "http.url" (.s "/api/users/123")).setAttr
      "http.status_code" (.i 200)).setAttr
      "user.id" (.s "123")
  -- authenticate_user: set auth.method, sleep 10–50ms, set auth.success
  let t1 := t0 + d.authDelay
  let auth := (((beginSpan "authenticate_user" t0).setAttr
      "auth.method" (.s "jwt")).setAttr
      "auth.success" (.b true)).endAt t1
  -- database_query: set db attrs, sleep 20–100ms, set rows_affected
  let t2 := t1 + d.dbDelay
  let db := (((((beginSpan "database_query" t1).setAttr
      "db.system" (.s "postgresql")).setAttr
      "db.operation" (.s "SELECT")).setAttr
      "db.table" (.s "users")).setAttr
      "db.rows_affected" (.i 1)).endAt t2
  -- external_api_call: set method/url, sleep 50–200ms, then 10% error branch
  let t3 := t2 + d.apiDelay
  let api1 := ((beginSpan "external_api_call" t2).setAttr
      "http.method" (.s "GET")).setAttr
      "http.url" (.s "https://external.example.com/profile")
  let api :=
    if d.apiFail then
      ((api1.setAttr "error" (.b true)).setAttr
        "http.status_code" (.i 500)).endAt t3
    else
      (api1.setAttr "http.status_code" (.i 200)).endAt t3
  let parent1 :=
    if d.apiFail then parent0.setAttr "http.status_code" (.i 500) else parent0
  -- process_response: set response.size, sleep 5–20ms
  let t4 := t3 + d.procDelay
  let proc := ((beginSpan "process_response" t3).setAttr
      "response.size" (.i d.respSize)).endAt t4
  ((parent1.withChildren [auth, db, api, proc]).endAt t4, t4)

/-- Random draws consumed by one run of `simulate_order_process`. -/
structure OrderDraws : Type where
  orderId : Int
  itemsCount : Int
  amount : ℚ
  validateDelay : Nat
  invDelay : Nat
  payDelay : Nat
  payFail : Bool
  updDelay : Nat
  notifyDelay : Nat
deriving DecidableEq, Repr

/-- Ranges of the random draws in `simulate_order_process`:
`randint(1000,9999)`, `randint(1,5)`, `uniform(10.0,500.0)`, and the five
sleeps `uniform(0.01,0.03)`, `uniform(0.03,0.08)`, `uniform(0.1,0.3)`,
`uniform(0.02,0.06)`, `uniform(0.01,0.04)` (in ms). -/
abbrev OrderDraws.Valid (d : OrderDraws) : Prop :=
  1000 ≤ d.orderId ∧ d.orderId ≤ 9999 ∧
  1 ≤ d.itemsCount ∧ d.itemsCount ≤ 5 ∧
  (10 : ℚ) ≤ d.amount ∧ d.amount ≤ 500 ∧
  10 ≤ d.validateDelay ∧ d.validateDelay ≤ 30 ∧
  30 ≤ d.invDelay ∧ d.invDelay ≤ 80 ∧
  100 ≤ d.payDelay ∧ d.payDelay ≤ 300 ∧
  20 ≤ d.updDelay ∧ d.updDelay ≤ 60 ∧
  10 ≤ d.notifyDelay ∧ d.notifyDelay ≤ 40

/-- `simulate_order_process(tracer)` from `src/test-traces.py`, lines 96–159:
returns the completed root span and the final clock.  On the 5% payment
failure the function `return`s early: the payment span and the root span are
still closed by their `with` blocks, and the database-update and
notification operations never run. -/
def simulate_order_process (d : OrderDraws) (t0 : Nat) : Span × Nat :=
  let root0 := (((beginSpan "order_process" t0).setAttr
      "order.id" (.i d.orderId)).setAttr
      "http.method" (.s "POST")).setAttr
      "http.url" (.s "/api/orders")
  -- validate_order: set items_count, sleep 10–30ms
  let t1 := t0 + d.validateDelay
  let validate := ((beginSpan "validate_order" t0).setAttr
      "order.items_count" (.i d.itemsCount)).endAt t1
  -- check_inventory: set check_type, sleep 30–80ms, set available
  let t2 := t1 + d.invDelay
  let inv := (((beginSpan "check_inventory" t1).setAttr
      "inventory.check_type" (.s "real_time")).setAttr
      "inventory.available" (.b true)).endAt t2
  -- process_payment: set method/amount, sleep 100–300ms, 5% failure branch
  let t3 := t2 + d.payDelay
  let pay0 := ((beginSpan "process_payment" t2).setAttr
      "payment.method" (.s "credit_card")).setAttr
      "payment.amount" (.f d.amount)
  if d.payFail then
    -- failure: mark payment failed/errored, set root 402, early return
    let pay := ((pay0.setAttr "payment.status" (.s "failed")).setAttr
        "error" (.b true)).endAt t3
    let root := ((root0.setAttr "http.status_code" (.i 402)).withChildren
        [validate, inv, pay]).endAt t3
    (root, t3)
  else
    let pay := (pay0.setAttr "payment.status" (.s "success")).endAt t3
    -- update_order_database: sleep 20–60ms
    let t4 := t3 + d.updDelay
    let upd := ((((beginSpan "update_order_database" t3).setAttr
        "db.system" (.s "postgresql")).setAttr
        "db.operation" (.s "INSERT")).setAttr
        "db.table" (.s "orders")).endAt t4
    -- send_notification: sleep 10–40ms
    let t5 := t4 + d.notifyDelay
    let notify := (((beginSpan "send_notification" t4).setAttr
        "notification.type" (.s "email")).setAttr
        "notification.recipient" (.s "user@example.com")).endAt t5
    let root := (((root0.setAttr "http.status_code" (.i 201)).setAttr
        "order.status" (.s "completed")).withChildren
        [validate, inv, pay, upd, notify]).endAt t5
    (root, t5)

/-- Random draws consumed by one iteration of the generation loop in `main`:
the 70% workflow-selection branch outcome, the draws of whichever workflow
runs, and the inter-request jitter `uniform(0.1, 0.5)` (ms). -/
structure IterDraw : Type where
  pickUser : Bool
  user : UserDraws
  order : OrderDraws
  jitter : Nat
deriving DecidableEq, Repr

/-- Ranges of the per-iteration draws. -/
abbrev IterDraw.Valid (d : IterDraw) : Prop :=
  d.user.Valid ∧ d.order.Valid ∧ 100 ≤ d.jitter ∧ d.jitter ≤ 500

/-- Run the workflow selected by this iteration's weighted choice
(`random.random() < 0.7`) at clock `t`; returns the final clock. -/
def runIter (d : IterDraw) (t : Nat) : Nat :=
  if d.pickUser then (simulate_user_request d.user t).2
  else (simulate_order_process d.order t).2

/-- The `while time.time() - start_time < 30` loop of `main`
(`src/test-traces.py`, lines 169–186), with the clock started at 0 so the
clock value is the elapsed time.  `ds` is the stream of random draws,
indexed by the iteration counter; `fuel` bounds the number of unfoldings of
the while loop (the standard embedding of an unbounded loop — fuel adequacy
for valid draws is proved below).  Returns `(elapsed, trace_count)` at loop
exit. -/
def genLoopAux (ds : Nat → IterDraw) : Nat → Nat → Nat → Option (Nat × Nat)
  | 0, _, _ => none
  | fuel + 1, t, count =>
    if t < 30000 then
      genLoopAux ds fuel (runIter (ds count) t + (ds count).jitter) (count + 1)
    else
      some (t, count)

/-- The entry point `main`: runs the generation loop with the fixed
30-second budget, elapsed clock starting at 0 and `trace_count = 0`. -/
def main_run (ds : Nat → IterDraw) (fuel : Nat) : Option (Nat × Nat) :=
  genLoopAux ds fuel 0 0

/-- Modelled from the spec: the Span Tree Builder's `markError` operation
(spec §4.1 "sets status = ERROR; idempotent").  The repository delegates
span status handling to the external OpenTelemetry SDK, whose code is not
part of this repository; `src/test-traces.py` records failures only through
attributes and never invokes it, so the operation is modelled from the
spec's words. -/
def markError : Span → Span
  | .mk n a s e _ c => .mk n a s e .error c

mutual

/-- A span and, recursively, all of its descendants have their `end_time`
recorded. -/
def allEnded : Span → Bool
  | .mk _ _ _ e _ cs => e.isSome && allEndedList cs

/-- `allEnded` over a list of spans. -/
def allEndedList : List Span → Bool
  | [] => true
  | c :: cs => allEnded c && allEndedList cs

end

mutual

/-- No span in the tree has status `ERROR` (every node carries the default
`unset` status, which `src/test-traces.py` never changes). -/
def allUnset : Span → Bool
  | .mk _ _ _ _ st cs => (st == .unset) && allUnsetList cs

/-- `allUnset` over a list of spans. -/
def allUnsetList : List Span → Bool
  | [] => true
  | c :: cs => allUnset c && allUnsetList cs

end

mutual

/-- Every child is temporally contained in its parent, at every level of
the tree: `child.start_time ≥ parent.start_time` and
`child.end_time ≤ parent.end_time`. -/
def temporalOK : Span → Bool
  | .mk _ _ t e _ cs => temporalOKList t e cs

/-- `temporalOK` of each span in the list, plus containment of each in the
enclosing `(pStart, pEnd)` window. -/
def temporalOKList (pStart : Nat) (pEnd : Option Nat) : List Span → Bool
  | [] => true
  | c :: cs =>
    (pStart ≤ c.startTime) &&
    (match c.endTime, pEnd with
     | some ce, some pe => ce ≤ pe
     | _, _ => false) &&
    temporalOK c && temporalOKList pStart pEnd cs

end


/-! ## Theorems -/

/-- C1: in the Order Process workflow, when the payment failure draw
succeeds, the workflow sets `payment.status = "failed"` and `error = true`
on the `process_payment` child, sets the root's `http.status_code`
attribute to 402, and returns early, so the completed tree has exactly the
3 children `validate_order`, `check_inventory`, `process_payment` and no
`update_order_database` or `send_notification` child. -/
theorem order_payment_failure_short_circuit (d : OrderDraws) (t0 : Nat)
    (h : d.payFail = true) :
    ((simulate_order_process d t0).1.children.map Span.name =
      ["validate_order", "check_inventory", "process_payment"]) ∧
    ((simulate_order_process d t0).1.children[2]?.map
      (fun c => getAttr c "payment.status") = some (some (.s "failed"))) ∧
    ((simulate_order_process d t0).1.children[2]?.map
      (fun c => getAttr c "error") = some (some (.b true))) ∧
    (getAttr (simulate_order_process d t0).1 "http.status_code" =
      some (.i 402)) ∧
    ((simulate_order_process d t0).1.children.length = 3) ∧
    (∀ c ∈ (simulate_order_process d t0).1.children,
      c.name ≠ "update_order_database" ∧ c.name ≠ "send_notification") := by
  simp [simulate_order_process, h, getAttr, Span.attributes, Span.children,
    Span.name, Span.withChildren, Span.endAt, Span.setAttr, beginSpan, upsert]

/-- Concrete payment-failure draw used for witnesses. -/
def orderFailDraw : OrderDraws :=
  { orderId := 1234, itemsCount := 3, amount := 100, validateDelay := 20,
    invDelay := 50, payDelay := 200, payFail := true, updDelay := 30,
    notifyDelay := 20 }

/-- Witness for C1 at a concrete payment-failure draw. -/
theorem order_payment_failure_short_circuit_witness :
    orderFailDraw.payFail = true ∧
    (((simulate_order_process orderFailDraw 0).1.children.map Span.name =
      ["validate_order", "check_inventory", "process_payment"]) ∧
    ((simulate_order_process orderFailDraw 0).1.children[2]?.map
      (fun c => getAttr c "payment.status") = some (some (.s "failed"))) ∧
    ((simulate_order_process orderFailDraw 0).1.children[2]?.map
      (fun c => getAttr c "error") = some (some (.b true))) ∧
    (getAttr (simulate_order_process orderFailDraw 0).1 "http.status_code" =
      some (.i 402)) ∧
    ((simulate_order_process orderFailDraw 0).1.children.length = 3) ∧
    (∀ c ∈ (simulate_order_process orderFailDraw 0).1.children,
      c.name ≠ "update_order_database" ∧ c.name ≠ "send_notification")) :=
  ⟨rfl, order_payment_failure_short_circuit orderFailDraw 0 rfl⟩

/-- C2: in the User Request workflow, the `external_api_call` child and the
`user_request` root both end with `http.status_code` 500 exactly when the
external-API failure draw succeeds (200 otherwise), and all four children
`authenticate_user`, `database_query`, `external_api_call`,
`process_response` are present in every invocation — no short-circuit. -/
theorem user_request_api_failure_no_short_circuit (d : UserDraws) (t0 : Nat) :
    ((simulate_user_request d t0).1.children.map Span.name =
      ["authenticate_user", "database_query", "external_api_call",
        "process_response"]) ∧
    ((simulate_user_request d t0).1.children[2]?.map
      (fun c => getAttr c "http.status_code") =
      some (some (.i (if d.apiFail then 500 else 200)))) ∧
    (getAttr (simulate_user_request d t0).1 "http.status_code" =
      some (.i (if d.apiFail then 500 else 200))) := by
  cases h : d.apiFail <;>
    simp [simulate_user_request, h, getAttr, Span.attributes, Span.children,
      Span.name, Span.withChildren, Span.endAt, Span.setAttr, beginSpan,
      upsert]

/-- C3: in the Order Process workflow, when the payment failure draw fails,
the completed tree has exactly 5 children and the root's final attributes
include `http.status_code = 201` and `order.status = "completed"`. -/
theorem order_payment_success_full_tree (d : OrderDraws) (t0 : Nat)
    (h : d.payFail = false) :
    ((simulate_order_process d t0).1.children.map Span.name =
      ["validate_order", "check_inventory", "process_payment",
        "update_order_database", "send_notification"]) ∧
    ((simulate_order_process d t0).1.children.length = 5) ∧
    (getAttr (simulate_order_process d t0).1 "http.status_code" =
      some (.i 201)) ∧
    (getAttr (simulate_order_process d t0).1 "order.status" =
      some (.s "completed")) := by
  simp [simulate_order_process, h, getAttr, Span.attributes, Span.children,
    Span.name, Span.withChildren, Span.endAt, Span.setAttr, beginSpan, upsert]

/-- Concrete payment-success draw used for witnesses. -/
def orderOkDraw : OrderDraws :=
  { orderId := 5678, itemsCount := 2, amount := 250, validateDelay := 15,
    invDelay := 40, payDelay := 150, payFail := false, updDelay := 40,
    notifyDelay := 25 }

/-- Witness for C3 at a concrete payment-success draw. -/
theorem order_payment_success_full_tree_witness :
    orderOkDraw.payFail = false ∧
    (((simulate_order_process orderOkDraw 0).1.children.map Span.name =
      ["validate_order", "check_inventory", "process_payment",
        "update_order_database", "send_notification"]) ∧
    ((simulate_order_process orderOkDraw 0).1.children.length = 5) ∧
    (getAttr (simulate_order_process orderOkDraw 0).1 "http.status_code" =
      some (.i 201)) ∧
    (getAttr (simulate_order_process orderOkDraw 0).1 "order.status" =
      some (.s "completed"))) :=
  ⟨rfl, order_payment_success_full_tree orderOkDraw 0 rfl⟩

/-- C4: every span that is begun is also ended on every exit path of its
workflow; in particular on the Order Process payment-failure early return
both the `process_payment` child and the `order_process` root still record
an `end_time` (the root closes even when a descendant short-circuits). -/
theorem every_span_ended (du : UserDraws) (d : OrderDraws) (t0 : Nat) :
    (allEnded (simulate_user_request du t0).1 = true) ∧
    (allEnded (simulate_order_process d t0).1 = true) ∧
    (d.payFail = true →
      ((simulate_order_process d t0).1.endTime =
        some (t0 + d.validateDelay + d.invDelay + d.payDelay)) ∧
      ((simulate_order_process d t0).1.children[2]?.map Span.endTime =
        some (some (t0 + d.validateDelay + d.invDelay + d.payDelay)))) := by
  refine ⟨?_, ?_, ?_⟩
  · cases h : du.apiFail <;>
      simp [simulate_user_request, h, allEnded, allEndedList,
        Span.withChildren, Span.endAt, Span.setAttr, beginSpan]
  · cases h : d.payFail <;>
      simp [simulate_order_process, h, allEnded, allEndedList,
        Span.withChildren, Span.endAt, Span.setAttr, beginSpan]
  · intro h
    simp [simulate_order_process, h, Span.children, Span.endTime,
      Span.withChildren, Span.endAt, Span.setAttr, beginSpan]

/-- Concrete user-request draw used for witnesses. -/
def userOkDraw : UserDraws :=
  { authDelay := 30, dbDelay := 60, apiDelay := 120, procDelay := 10,
    apiFail := false, respSize := 1000 }

/-- Witness for C4 at concrete draws with the payment failure forced. -/
theorem every_span_ended_witness :
    (allEnded (simulate_user_request userOkDraw 0).1 = true) ∧
    (allEnded (simulate_order_process orderFailDraw 0).1 = true) ∧
    ((simulate_order_process orderFailDraw 0).1.endTime = some 270) ∧
    ((simulate_order_process orderFailDraw 0).1.children[2]?.map Span.endTime =
      some (some 270)) := by
  have h := every_span_ended userOkDraw orderFailDraw 0
  exact ⟨h.1, h.2.1, (h.2.2 rfl).1, (h.2.2 rfl).2⟩

/-- C5: for every completed span tree produced by either workflow, every
child is temporally contained in its parent: the child's `start_time` is at
least the parent's `start_time` and the child's `end_time` is at most the
parent's `end_time`, at every level of the tree. -/
theorem children_temporally_contained (du : UserDraws) (d : OrderDraws)
    (t0 : Nat) :
    (temporalOK (simulate_user_request du t0).1 = true) ∧
    (temporalOK (simulate_order_process d t0).1 = true) := by
  constructor
  · cases h : du.apiFail <;>
      (simp [simulate_user_request, h, temporalOK, temporalOKList,
        Span.withChildren, Span.endAt, Span.setAttr, beginSpan,
        Span.startTime, Span.endTime]; omega)
  · cases h : d.payFail <;>
      (simp [simulate_order_process, h, temporalOK, temporalOKList,
        Span.withChildren, Span.endAt, Span.setAttr, beginSpan,
        Span.startTime, Span.endTime]; omega)

/-- C8: `markError` is idempotent — marking an already-errored span leaves
its status `ERROR` and changes nothing else compared to marking it once. -/
theorem markError_idempotent (sp : Span) :
    markError (markError sp) = markError sp ∧
    (markError sp).status = .error := by
  cases sp with
  | mk n a s e st c => exact ⟨rfl, rfl⟩

/-- C9: on the Order Process payment-failure path the root's final
attribute list is exactly `order.id`, `http.method`, `http.url`,
`http.status_code = 402` (in insertion order), and `order.status` is never
written on that path. -/
theorem order_failure_root_attribute_frame (d : OrderDraws) (t0 : Nat)
    (h : d.payFail = true) :
    ((simulate_order_process d t0).1.attributes =
      [("order.id", .i d.orderId), ("http.method", .s "POST"),
        ("http.url", .s "/api/orders"), ("http.status_code", .i 402)]) ∧
    (getAttr (simulate_order_process d t0).1 "order.status" = none) := by
  simp [simulate_order_process, h, getAttr, Span.attributes,
    Span.withChildren, Span.endAt, Span.setAttr, beginSpan, upsert]

/-- Witness for C9 at a concrete payment-failure draw. -/
theorem order_failure_root_attribute_frame_witness :
    ((simulate_order_process orderFailDraw 0).1.attributes =
      [("order.id", .i 1234), ("http.method", .s "POST"),
        ("http.url", .s "/api/orders"), ("http.status_code", .i 402)]) ∧
    (getAttr (simulate_order_process orderFailDraw 0).1 "order.status" =
      none) :=
  order_failure_root_attribute_frame orderFailDraw 0 rfl

/-- C10: neither workflow ever sets a span's status to `ERROR`: failures
are recorded only through attributes, so every span of every run of either
workflow still carries the default (non-ERROR) status. -/
theorem no_span_status_error (du : UserDraws) (d : OrderDraws) (t0 : Nat) :
    (allUnset (simulate_user_request du t0).1 = true) ∧
    (allUnset (simulate_order_process d t0).1 = true) := by
  constructor
  · cases h : du.apiFail <;>
      simp [simulate_user_request, h, allUnset, allUnsetList,
        Span.withChildren, Span.endAt, Span.setAttr, beginSpan]
  · cases h : d.payFail <;>
      simp [simulate_order_process, h, allUnset, allUnsetList,
        Span.withChildren, Span.endAt, Span.setAttr, beginSpan]

/-- The User Request workflow advances the clock by exactly the sum of its
four sleeps, on both branches. -/
theorem user_request_final_clock (d : UserDraws) (t0 : Nat) :
    (simulate_user_request d t0).2 =
      t0 + d.authDelay + d.dbDelay + d.apiDelay + d.procDelay := rfl

/-- The Order Process workflow advances the clock by the sum of the three
sleeps before the payment branch, plus the last two sleeps when the payment
succeeds. -/
theorem order_process_final_clock (d : OrderDraws) (t0 : Nat) :
    (simulate_order_process d t0).2 =
      if d.payFail then t0 + d.validateDelay + d.invDelay + d.payDelay
      else t0 + d.validateDelay + d.invDelay + d.payDelay + d.updDelay +
        d.notifyDelay := by
  cases h : d.payFail <;> simp [simulate_order_process, h]

/-- One loop iteration never rewinds the clock and, for draws within the
source's random ranges, adds at most 510ms of workflow time (the maximal
Order Process success path 30+80+300+60+40). -/
theorem runIter_clock_bounds (d : IterDraw) (t : Nat) (hv : d.Valid) :
    t ≤ runIter d t ∧ runIter d t ≤ t + 510 := by
  obtain ⟨hu, ho, hj⟩ := hv
  unfold runIter
  cases hp : d.pickUser <;>
    simp [user_request_final_clock, order_process_final_clock]
  · rcases ho with ⟨-, -, -, -, -, -, -, h1, -, h2, -, h3, -, h4, -, h5⟩
    cases hq : d.order.payFail <;> simp [hq] <;> omega
  · rcases hu with ⟨-, h1, -, h2, -, h3, -, h4, -⟩
    omega

/-- Fuel adequacy and bounded overrun of the generation loop: from any
state with enough fuel (each iteration consumes at least the 100ms minimum
jitter) and elapsed time still below the overrun bound, the loop reaches
STOPPED with elapsed time in `[30000, 31010)`. -/
theorem genLoopAux_bounded (ds : Nat → IterDraw) (hv : ∀ n, (ds n).Valid) :
    ∀ fuel t count, 30000 ≤ t + 100 * fuel → t < 31010 →
      ∃ e c, genLoopAux ds (fuel + 1) t count = some (e, c) ∧
        30000 ≤ e ∧ e < 31010 := by
  intro fuel
  induction fuel with
  | zero =>
    intro t count h1 h2
    refine ⟨t, count, ?_, by omega, h2⟩
    simp only [genLoopAux]
    rw [if_neg (by omega)]
  | succ n ih =>
    intro t count h1 h2
    by_cases ht : t < 30000
    · have hrun := runIter_clock_bounds (ds count) t (hv count)
      have hjit := (hv count).2.2
      have step :
          genLoopAux ds (n + 1 + 1) t count =
            genLoopAux ds (n + 1)
              (runIter (ds count) t + (ds count).jitter) (count + 1) := by
        simp only [genLoopAux]
        rw [if_pos ht]
      rw [step]
      exact ih (runIter (ds count) t + (ds count).jitter) (count + 1)
        (by omega) (by omega)
    · refine ⟨t, count, ?_, by omega, h2⟩
      simp only [genLoopAux]
      rw [if_neg ht]

/-- C6: the generation loop, run by the entry point with the fixed
30-second budget, terminates (301 unfoldings of the while loop suffice for
draws within the source's random ranges), and the elapsed time at STOPPED
is at least 30000ms and strictly below 30000 + (510 + 500)ms — the budget
plus at most one extra iteration (max single-workflow duration 510ms plus
max jitter 500ms). -/
theorem generation_loop_terminates_within_budget (ds : Nat → IterDraw)
    (hv : ∀ n, (ds n).Valid) :
    ∃ e c, main_run ds 301 = some (e, c) ∧
      30000 ≤ e ∧ e < 30000 + (510 + 500) := by
  have h := genLoopAux_bounded ds hv 300 0 0 (by omega) (by omega)
  simpa [main_run] using h

/-- A concrete per-iteration draw with both failure branches forced, used
for the loop witnesses. -/
def iterFailDraw : IterDraw :=
  { pickUser := true,
    user := { authDelay := 30, dbDelay := 60, apiDelay := 120,
              procDelay := 10, apiFail := true, respSize := 1000 },
    order := orderFailDraw,
    jitter := 300 }

/-- Witness for C6 with a concrete stream of valid draws. -/
theorem generation_loop_terminates_within_budget_witness :
    ∃ e c, main_run (fun _ => iterFailDraw) 301 = some (e, c) ∧
      30000 ≤ e ∧ e < 30000 + (510 + 500) :=
  generation_loop_terminates_within_budget (fun _ => iterFailDraw)
    (fun _ => (by decide : iterFailDraw.Valid))

/-- C7: simulated business failures never terminate the loop or skip its
per-iteration steps.  For every draw stream — including streams whose every
draw forces the external-API and payment failures — a state inside the
budget steps to the next iteration with the workflow run, the jitter added
to the clock, and the counter incremented; the only transition to STOPPED
is the time-budget check `30000 ≤ t`. -/
theorem failures_never_stop_loop (ds : Nat → IterDraw)
    (fuel t count : Nat) :
    (t < 30000 →
      genLoopAux ds (fuel + 1) t count =
        genLoopAux ds fuel
          (runIter (ds count) t + (ds count).jitter) (count + 1)) ∧
    (30000 ≤ t → genLoopAux ds (fuel + 1) t count = some (t, count)) := by
  constructor
  · intro h
    simp only [genLoopAux]
    rw [if_pos h]
  · intro h
    simp only [genLoopAux]
    rw [if_neg (by omega)]

/-- Witness for C7: with every failure forced, an in-budget state continues
(counter incremented, jitter slept) and an out-of-budget state stops. -/
theorem failures_never_stop_loop_witness :
    (genLoopAux (fun _ => iterFailDraw) 2 0 0 =
      genLoopAux (fun _ => iterFailDraw) 1
        (runIter iterFailDraw 0 + iterFailDraw.jitter) 1) ∧
    (genLoopAux (fun _ => iterFailDraw) 1 30000 5 = some (30000, 5)) :=
  ⟨(failures_never_stop_loop (fun _ => iterFailDraw) 1 0 0).1 (by decide),
   (failures_never_stop_loop (fun _ => iterFailDraw) 0 30000 5).2
     (by decide)⟩
